import Mathlib

/-!
Shallow embedding of the collection → store → broadcast engine of
`src/server.js` (the second server variant in that file, the one with the
Diagnostics collector; lines 298–557 of the combined file).

State variables of the server (lines 314–318):
  `currentMetrics = {}`, `eventLogs = []`,
  `systemDiagnostics = { issues: [], ... }`, `metricsHistory = []`,
  `MAX_HISTORY = 100`.

The collectors (`collectMetrics`, `collectEventLogs`, `collectDiagnostics`)
are async functions that consult the `DEMO_MODE` flag and otherwise run an
external PowerShell script; the outcome of that external script is passed
here as an explicit `CollectResult` parameter.  Numeric fields that the
core only copies around (cpu percentages, memory percentages, timestamps)
are abstracted as `Nat`; payload parts the core never inspects are opaque
structures.
-/

namespace Win11Monitor

/-- Outcome of running an external PowerShell collector script:
the promise either resolves with parsed data or rejects with an error
message (`executePowerShellScript`, lines 335–366). -/
inductive CollectResult (α : Type) where
  | ok (data : α)
  | err (msg : String)
deriving DecidableEq

/-- `data.memory` sub-object of a metrics payload; the core reads only
`memory.percent` (line 384). -/
structure MemoryInfo where
  percent : Nat
deriving DecidableEq

/-- Parsed metrics payload.  `cpu` and `memory` are optional because the
code guards them (`data.cpu || 0`, `data.memory ? data.memory.percent : 0`,
lines 383–384). -/
structure MetricsData where
  cpu : Option Nat
  memory : Option MemoryInfo
deriving DecidableEq

/-- One entry of `metricsHistory` (lines 381–385):
`{ timestamp, cpu, memory }`. -/
structure HistoryPoint where
  timestamp : Nat
  cpu : Nat
  memory : Nat
deriving DecidableEq

/-- The history projection of a metrics payload (lines 381–385):
`{ timestamp: now, cpu: data.cpu || 0,
   memory: data.memory ? data.memory.percent : 0 }`. -/
def historyPoint (now : Nat) (d : MetricsData) : HistoryPoint :=
  { timestamp := now
    cpu := d.cpu.getD 0
    memory := (d.memory.map MemoryInfo.percent).getD 0 }

/-- `const MAX_HISTORY = 100` (line 318). -/
def MAX_HISTORY : Nat := 100

/-- The history append of `collectMetrics` (lines 381–390), factored over
its capacity: `metricsHistory.push(point)` followed by
`if (metricsHistory.length > cap) metricsHistory.shift()`.
`shift()` removes the first (oldest) element, i.e. takes the tail.
The code instantiates `cap` with `MAX_HISTORY`. -/
def pushHistory (cap : Nat) (p : HistoryPoint) (h : List HistoryPoint) :
    List HistoryPoint :=
  let h2 := h ++ [p]
  if h2.length > cap then h2.tail else h2

/-- An event-log entry; the core stores and forwards these opaquely. -/
structure EventEntry where
  eventId : Nat
deriving DecidableEq

/-- Parsed event-log payload; `events` is optional because the code guards
it (`data.events || []`, line 409). -/
structure EventLogsData where
  events : Option (List EventEntry)
deriving DecidableEq

/-- Parsed diagnostics payload; stored and forwarded opaquely
(`systemDiagnostics = data`, line 438). -/
structure DiagData where
  totalIssues : Nat
deriving DecidableEq

/-- Value held by (or produced for) the `currentMetrics` slot.
`empty` is the initial `{}` (line 314); `data` is a parsed script payload
(line 378); `demoMessage` is `generateDemoMessage()` (lines 325–332,
returned on line 371 but never stored); `errorMsg` is the
`{ error: error.message }` object of the catch branch (line 395, returned
but never stored). -/
inductive MetricsValue where
  | empty
  | data (d : MetricsData)
  | demoMessage
  | errorMsg (msg : String)
deriving DecidableEq

/-- Value held by the `systemDiagnostics` slot: its initial literal
(line 316) or a parsed script payload (line 438). -/
inductive DiagValue where
  | initialDiag
  | scriptData (d : DiagData)
deriving DecidableEq

/-- Return value of `collectEventLogs` (lines 400–416): the demo object
`{ events: [], message: ... }` (line 402), the parsed payload (line 411),
or the catch-branch object `{ error, events: [] }` (line 414). -/
inductive EventLogsValue where
  | demoEmpty
  | okData (d : EventLogsData)
  | errObj (msg : String)
deriving DecidableEq

/-- Return value of `collectDiagnostics` (lines 419–451): the demo info
object (lines 421–431), the parsed payload (line 440), or the catch-branch
error object (lines 443–449). -/
inductive DiagResult where
  | demoInfo
  | okData (d : DiagData)
  | errObj (msg : String)
deriving DecidableEq

/-- The mutable module-level state of the server (lines 314–317). -/
structure ServerState where
  currentMetrics : MetricsValue
  eventLogs : List EventEntry
  systemDiagnostics : DiagValue
  metricsHistory : List HistoryPoint
deriving DecidableEq

/-- The state right after module load (lines 314–317):
`currentMetrics = {}`, `eventLogs = []`,
`systemDiagnostics = { issues: [], ... }`, `metricsHistory = []`. -/
def initialState : ServerState :=
  { currentMetrics := .empty
    eventLogs := []
    systemDiagnostics := .initialDiag
    metricsHistory := [] }

/-- `collectMetrics` (lines 369–397).  In demo mode it returns
`generateDemoMessage()` without touching any state (lines 370–372).
Otherwise, on script success it stores the payload in `currentMetrics`,
appends the history projection with capacity eviction, and returns the
payload (lines 374–392); on script failure the catch branch returns
`{ error: error.message }` and changes no state (lines 393–396). -/
def collectMetrics (demoMode : Bool) (script : CollectResult MetricsData)
    (now : Nat) (s : ServerState) : MetricsValue × ServerState :=
  if demoMode then
    (.demoMessage, s)
  else
    match script with
    | .ok data =>
        (.data data,
          { s with
              currentMetrics := .data data
              metricsHistory :=
                pushHistory MAX_HISTORY (historyPoint now data)
                  s.metricsHistory })
    | .err msg => (.errorMsg msg, s)

/-- `collectEventLogs` (lines 400–416).  Demo mode returns an empty-events
message without touching state (lines 401–403); on script success it stores
`data.events || []` in `eventLogs` and returns the payload (lines 405–411);
on failure the catch branch returns an error object, state unchanged
(lines 412–415). -/
def collectEventLogs (demoMode : Bool) (script : CollectResult EventLogsData)
    (s : ServerState) : EventLogsValue × ServerState :=
  if demoMode then
    (.demoEmpty, s)
  else
    match script with
    | .ok data =>
        (.okData data, { s with eventLogs := data.events.getD [] })
    | .err msg => (.errObj msg, s)

/-- `collectDiagnostics` (lines 419–451).  Demo mode returns an info object
without touching state (lines 420–432); on script success it stores the
payload in `systemDiagnostics` and returns it (lines 434–440); on failure
the catch branch returns an error object, state unchanged (lines 441–450). -/
def collectDiagnostics (demoMode : Bool) (script : CollectResult DiagData)
    (s : ServerState) : DiagResult × ServerState :=
  if demoMode then
    (.demoInfo, s)
  else
    match script with
    | .ok data =>
        (.okData data, { s with systemDiagnostics := .scriptData data })
    | .err msg => (.errObj msg, s)

/-- Payload of a WebSocket message `{ type, data }`.  The connection
handler sends `currentMetrics`, `{ events: eventLogs }` and
`systemDiagnostics` (lines 505–518); the interval callbacks broadcast the
return values of the three collectors (lines 535–548). -/
inductive Payload where
  | metricsVal (v : MetricsValue)
  | eventsWrapped (events : List EventEntry)
  | eventsResult (r : EventLogsValue)
  | diagStored (d : DiagValue)
  | diagResult (r : DiagResult)
deriving DecidableEq

/-- A WebSocket message `JSON.stringify({ type, data })`
(lines 505, 526–531). -/
structure WsMessage where
  type : String
  data : Payload
deriving DecidableEq

/-- One connected WebSocket client as the broadcast path sees it:
`readyState` (1 = OPEN, line 528) plus the ordered log of messages that
`client.send` has delivered to it. -/
structure Client where
  id : Nat
  readyState : Nat
  received : List WsMessage
deriving DecidableEq

/-- Placeholder client used with `List.getD`. -/
def defaultClient : Client := { id := 0, readyState := 0, received := [] }

/-- Placeholder message used with `List.getD`. -/
def defaultMsg : WsMessage := { type := "", data := .diagStored .initialDiag }

/-- `wss.clients`: the set of currently connected clients, ordered for the
`forEach` traversal of `broadcastToClients` (line 527). -/
structure Hub where
  clients : List Client
deriving DecidableEq

/-- Delivery of a batch of messages to one client, in order: each message
is sent only when the client is OPEN (`readyState === 1`, line 528);
otherwise the client is skipped untouched. -/
def deliver (ms : List WsMessage) (c : Client) : Client :=
  if c.readyState = 1 then { c with received := c.received ++ ms } else c

/-- `broadcastToClients(type, data)` (lines 526–532): for each client of
`wss.clients`, if `client.readyState === 1` then
`client.send(JSON.stringify({ type, data }))`, else skip.  Membership of
`wss.clients` is not changed by this function. -/
def broadcastToClients (type : String) (data : Payload) (hub : Hub) : Hub :=
  { clients := hub.clients.map (deliver [{ type := type, data := data }]) }

/-- A sequence of broadcasts run in order, as the interval callbacks do
(lines 535–548): each completed collection cycle calls
`broadcastToClients` once. -/
def runBroadcasts (ms : List WsMessage) (hub : Hub) : Hub :=
  ms.foldl (fun h m => broadcastToClients m.type m.data h) hub

/-- The three messages the connection handler sends to a newly connected
client, in source order (lines 505–518): current metrics, the wrapped
event-log list, and current diagnostics. -/
def onConnection (s : ServerState) : List WsMessage :=
  [{ type := "metrics", data := .metricsVal s.currentMetrics },
   { type := "eventlogs", data := .eventsWrapped s.eventLogs },
   { type := "diagnostics", data := .diagStored s.systemDiagnostics }]

/-- `wss.on('connection')` (lines 501–523): the new client is added to
`wss.clients` and is immediately sent the three `onConnection` messages. -/
def joinClient (s : ServerState) (id : Nat) (hub : Hub) : Hub :=
  { clients :=
      hub.clients ++ [{ id := id, readyState := 1, received := onConnection s }] }

/-- Response of `GET /api/history` (lines 469–474):
`{ history: metricsHistory, count: metricsHistory.length }`. -/
structure HistoryResponse where
  history : List HistoryPoint
  count : Nat
deriving DecidableEq

/-- Response of `GET /api/status` (lines 476–484); only the fields the
core computes are modelled (`status: 'online'`, `demoMode`). -/
structure StatusResponse where
  status : String
  demoMode : Bool
deriving DecidableEq

/-- Handler of `GET /api/metrics` (lines 454–457): it awaits a fresh
`collectMetrics()` and sends its result. -/
def apiMetrics (demoMode : Bool) (script : CollectResult MetricsData)
    (now : Nat) (s : ServerState) : MetricsValue × ServerState :=
  collectMetrics demoMode script now s

/-- Handler of `GET /api/eventlogs` (lines 459–462): it awaits a fresh
`collectEventLogs()` and sends its result. -/
def apiEventlogs (demoMode : Bool) (script : CollectResult EventLogsData)
    (s : ServerState) : EventLogsValue × ServerState :=
  collectEventLogs demoMode script s

/-- Handler of `GET /api/diagnostics` (lines 464–467): it awaits a fresh
`collectDiagnostics()` and sends its result. -/
def apiDiagnostics (demoMode : Bool) (script : CollectResult DiagData)
    (s : ServerState) : DiagResult × ServerState :=
  collectDiagnostics demoMode script s

/-- Handler of `GET /api/history` (lines 469–474): it reads
`metricsHistory` synchronously and does not modify any state. -/
def apiHistory (s : ServerState) : HistoryResponse × ServerState :=
  ({ history := s.metricsHistory, count := s.metricsHistory.length }, s)

/-- Handler of `GET /api/status` (lines 476–484): a synchronous, state-free
report. -/
def apiStatus (demoMode : Bool) (s : ServerState) : StatusResponse × ServerState :=
  ({ status := "online", demoMode := demoMode }, s)

/-- One state-mutating collection operation of the server: a scheduled
tick of one of the three interval timers (lines 535–548), or equivalently
the collection triggered by the corresponding pull endpoint
(lines 454–467), with the external script outcome as data. -/
inductive ServerOp where
  | opMetrics (script : CollectResult MetricsData) (now : Nat)
  | opEventlogs (script : CollectResult EventLogsData)
  | opDiagnostics (script : CollectResult DiagData)

/-- The state transition of one `ServerOp`. -/
def runOp (demoMode : Bool) (s : ServerState) (op : ServerOp) : ServerState :=
  match op with
  | .opMetrics sc t => (collectMetrics demoMode sc t s).2
  | .opEventlogs sc => (collectEventLogs demoMode sc s).2
  | .opDiagnostics sc => (collectDiagnostics demoMode sc s).2

/-- A run of successful non-demo metrics collection cycles: each cycle is
a `collectMetrics` whose script resolves with the given payload at the
given timestamp. -/
def runMetricsCycles (cycles : List (Nat × MetricsData)) (s : ServerState) :
    ServerState :=
  cycles.foldl (fun st c => (collectMetrics false (.ok c.2) c.1 st).2) s

/-- The `app.listen` startup callback (lines 487–496): one immediate
`collectMetrics(); collectEventLogs(); collectDiagnostics()` before any
interval timer has fired. -/
def startupCollect (demoMode : Bool) (mSc : CollectResult MetricsData)
    (eSc : CollectResult EventLogsData) (dSc : CollectResult DiagData)
    (now : Nat) (s : ServerState) : ServerState :=
  (collectDiagnostics demoMode dSc
    (collectEventLogs demoMode eSc
      (collectMetrics demoMode mSc now s).2).2).2

/-- In-flight census of the metrics interval timer
(`setInterval(async () => { await collectMetrics() ... }, 3000)`,
lines 535–538): the number of callback invocations that have started and
whose awaited collection has not yet completed. -/
structure TimerState where
  inFlight : Nat
deriving DecidableEq

/-- One expiry of the interval timer: `setInterval` invokes the async
callback unconditionally — the callback body (lines 535–538) consults no
in-flight flag — so a new collection starts regardless of how many are
already in flight. -/
def timerTick (st : TimerState) : TimerState :=
  { inFlight := st.inFlight + 1 }

/-- Completion of one in-flight collection (the `await` resolving). -/
def timerComplete (st : TimerState) : TimerState :=
  { inFlight := st.inFlight - 1 }

/-- `n` consecutive timer expiries with no intervening completion, i.e.
`n` elapsed intervals while the collector is still running. -/
def runTicks : Nat → TimerState → TimerState
  | 0, st => st
  | n + 1, st => runTicks n (timerTick st)

/-! ### Helper lemmas -/

theorem pushHistory_eq_drop (cap : Nat) (p : HistoryPoint)
    (h : List HistoryPoint) (hle : h.length ≤ cap) :
    pushHistory cap p h = (h ++ [p]).drop (h.length + 1 - cap) := by
  unfold pushHistory
  by_cases hgt : h.length + 1 > cap
  · have h1 : h.length + 1 - cap = 1 := by omega
    rw [h1, if_pos (by simp only [List.length_append, List.length_singleton]; omega)]
    exact (List.drop_one _).symm
  · have h0 : h.length + 1 - cap = 0 := by omega
    rw [h0, if_neg (by simp only [List.length_append, List.length_singleton]; omega)]
    simp

theorem pushHistory_length_le (cap : Nat) (p : HistoryPoint)
    (h : List HistoryPoint) (hle : h.length ≤ cap) :
    (pushHistory cap p h).length ≤ cap := by
  rw [pushHistory_eq_drop cap p h hle]
  simp
  omega

theorem foldl_pushHistory_drop (cap : Nat) (ps : List HistoryPoint) :
    ∀ h0 : List HistoryPoint, h0.length ≤ cap →
      ps.foldl (fun h p => pushHistory cap p h) h0 =
        (h0 ++ ps).drop (h0.length + ps.length - cap) := by
  induction ps with
  | nil =>
      intro h0 hle
      have hz : h0.length + 0 - cap = 0 := by omega
      simp only [List.foldl_nil, List.append_nil, List.length_nil, hz,
        List.drop_zero]
  | cons p ps ih =>
      intro h0 hle
      have hstep := pushHistory_eq_drop cap p h0 hle
      have hlen2 := pushHistory_length_le cap p h0 hle
      rw [List.foldl_cons, ih _ hlen2, hstep]
      have hd1le : h0.length + 1 - cap ≤ (h0 ++ [p]).length := by
        simp only [List.length_append, List.length_singleton]
        omega
      rw [← List.drop_append_of_le_length hd1le, List.drop_drop]
      have hassoc : (h0 ++ [p]) ++ ps = h0 ++ p :: ps := by simp
      rw [hassoc]
      congr 1
      have hlendrop :
          ((h0 ++ [p]).drop (h0.length + 1 - cap)).length =
            h0.length + 1 - (h0.length + 1 - cap) := by simp
      rw [hlendrop]
      simp only [List.length_cons]
      omega

theorem runMetricsCycles_history (cycles : List (Nat × MetricsData)) :
    ∀ s : ServerState, (runMetricsCycles cycles s).metricsHistory =
      (cycles.map (fun c => historyPoint c.1 c.2)).foldl
        (fun h p => pushHistory MAX_HISTORY p h) s.metricsHistory := by
  induction cycles with
  | nil => intro s; rfl
  | cons c cs ih =>
      intro s
      have hunf : runMetricsCycles (c :: cs) s =
          runMetricsCycles cs (collectMetrics false (.ok c.2) c.1 s).2 := rfl
      rw [hunf, ih]
      rfl

theorem deliver_nil (c : Client) : deliver [] c = c := by
  cases c with
  | mk id rs rec => by_cases h : rs = 1 <;> simp [deliver, h]

theorem deliver_deliver (as bs : List WsMessage) (c : Client) :
    deliver bs (deliver as c) = deliver (as ++ bs) c := by
  cases c with
  | mk id rs rec => by_cases h : rs = 1 <;> simp [deliver, h]

theorem runBroadcasts_clients (ms : List WsMessage) :
    ∀ hub : Hub, (runBroadcasts ms hub).clients = hub.clients.map (deliver ms) := by
  induction ms with
  | nil =>
      intro hub
      have : hub.clients.map (deliver []) = hub.clients := by
        rw [List.map_congr_left (fun c _ => deliver_nil c)]
        exact List.map_id' hub.clients
      rw [this]
      rfl
  | cons m ms ih =>
      intro hub
      have hunf : runBroadcasts (m :: ms) hub =
          runBroadcasts ms (broadcastToClients m.type m.data hub) := rfl
      rw [hunf, ih]
      simp only [broadcastToClients, List.map_map]
      apply List.map_congr_left
      intro c _
      simp only [Function.comp_apply]
      rw [deliver_deliver]
      rfl

theorem getD_map_of_lt {α β : Type} (f : α → β) (l : List α) (i : Nat)
    (d : α) (d' : β) (h : i < l.length) :
    (l.map f).getD i d' = f (l.getD i d) := by
  rw [List.getD_eq_getElem _ d' (by simpa using h), List.getD_eq_getElem l d h]
  simp

theorem getD_append_add {α : Type} (a b : List α) (j : Nat) (d : α) :
    (a ++ b).getD (a.length + j) d = b.getD j d := by
  simp [List.getD, List.getElem?_append_right]

/-! ### Claim theorems -/

/-- C1: after any run of N successful Metrics collection cycles with
N greater than the history capacity (`MAX_HISTORY = 100`), `metricsHistory`
has length exactly `MAX_HISTORY` and consists of the `MAX_HISTORY` most
recent points in chronological (insertion) order, the oldest point being
shifted out on each append at capacity; and at capacity 3 the appends of
points with values 10, 20, 30, 40 yield the history [20, 30, 40]. -/
theorem c1_history_ring_buffer :
    (∀ cycles : List (Nat × MetricsData), cycles.length > MAX_HISTORY →
      (runMetricsCycles cycles initialState).metricsHistory.length = MAX_HISTORY ∧
      (runMetricsCycles cycles initialState).metricsHistory =
        (cycles.map (fun c => historyPoint c.1 c.2)).drop
          (cycles.length - MAX_HISTORY)) ∧
    List.foldl (fun h p => pushHistory 3 p h) []
        [{ timestamp := 0, cpu := 10, memory := 0 },
         { timestamp := 1, cpu := 20, memory := 0 },
         { timestamp := 2, cpu := 30, memory := 0 },
         { timestamp := 3, cpu := 40, memory := 0 }] =
      [{ timestamp := 1, cpu := 20, memory := 0 },
       { timestamp := 2, cpu := 30, memory := 0 },
       { timestamp := 3, cpu := 40, memory := 0 }] := by
  constructor
  · intro cycles hgt
    have hbase : initialState.metricsHistory.length ≤ MAX_HISTORY := by
      simp [initialState]
    rw [runMetricsCycles_history cycles initialState,
      foldl_pushHistory_drop MAX_HISTORY _ _ hbase]
    simp only [initialState, List.length_nil, List.nil_append, Nat.zero_add,
      List.length_map]
    constructor
    · simp only [List.length_drop, List.length_map]
      omega
    · trivial
  · rfl

/-- A run of 101 successful cycles, used to instantiate C1. -/
def cycles101 : List (Nat × MetricsData) :=
  (List.range 101).map
    (fun i => (i, { cpu := some i, memory := some { percent := i } }))

/-- Witness for C1: the 101-cycle run satisfies the capacity hypothesis and
therefore its final history is the 100 most recent points. -/
theorem c1_history_ring_buffer_witness :
    cycles101.length > MAX_HISTORY ∧
    ((runMetricsCycles cycles101 initialState).metricsHistory.length = MAX_HISTORY ∧
     (runMetricsCycles cycles101 initialState).metricsHistory =
       (cycles101.map (fun c => historyPoint c.1 c.2)).drop
         (cycles101.length - MAX_HISTORY)) := by
  have hlen : cycles101.length > MAX_HISTORY := by
    simp [cycles101, MAX_HISTORY]
  exact ⟨hlen, c1_history_ring_buffer.1 cycles101 hlen⟩

/-- A state that already holds one successful metrics snapshot and one
history point, used to exercise a failing cycle. -/
def failState : ServerState :=
  { currentMetrics := .data { cpu := some 42, memory := some { percent := 50 } }
    eventLogs := []
    systemDiagnostics := .initialDiag
    metricsHistory := [{ timestamp := 1, cpu := 42, memory := 50 }] }

/-- C2 counterexample: a failing Metrics cycle does NOT replace
`currentMetrics` — the catch branch of `collectMetrics` (lines 393–396)
only returns `{ error: error.message }` and assigns nothing — so a reader
of current still sees the previous successful data, not the error. -/
theorem c2_failure_counterexample :
    (collectMetrics false (.err "powershell exited") 9 failState).2.currentMetrics =
      .data { cpu := some 42, memory := some { percent := 50 } } ∧
    MetricsValue.data { cpu := some 42, memory := some { percent := 50 } } ≠
      MetricsValue.errorMsg "powershell exited" ∧
    (collectMetrics false (.err "powershell exited") 9 failState).1 =
      .errorMsg "powershell exited" := by
  refine ⟨rfl, by simp, rfl⟩

/-- C2 amended: a failing Metrics cycle returns the error result (which is
what gets broadcast), but leaves the whole store — `currentMetrics`
included, history included — unchanged. -/
theorem c2_failure_leaves_state (s : ServerState) (msg : String) (t : Nat) :
    collectMetrics false (.err msg) t s = (.errorMsg msg, s) := rfl

/-- C3: a channel that joins the hub is immediately sent exactly one
initial message per collector kind — metrics, eventlogs, diagnostics, each
carrying the current snapshot of that kind — and every message of every
subsequent broadcast reaches it only after those three. -/
theorem c3_join_initial_messages (s : ServerState) (id : Nat) (hub : Hub)
    (later : List WsMessage) :
    ((runBroadcasts later (joinClient s id hub)).clients.getD
        hub.clients.length defaultClient).received =
      [{ type := "metrics", data := .metricsVal s.currentMetrics },
       { type := "eventlogs", data := .eventsWrapped s.eventLogs },
       { type := "diagnostics", data := .diagStored s.systemDiagnostics }] ++
        later := by
  rw [runBroadcasts_clients]
  simp only [joinClient, List.map_append]
  have hmaplen : (hub.clients.map (deliver later)).length = hub.clients.length := by
    simp
  rw [← hmaplen, ← Nat.add_zero (hub.clients.map (deliver later)).length,
    getD_append_add]
  simp [deliver, onConnection]

/-- C4 counterexample: two elapsed intervals of the metrics timer while the
collector is still running (no completion event) leave TWO invocations of
the same kind's collector concurrently in flight — the second tick is not
skipped. -/
theorem c4_overlap_counterexample :
    (runTicks 2 { inFlight := 0 }).inFlight = 2 ∧
    ¬ (runTicks 2 { inFlight := 0 }).inFlight ≤ 1 := by decide

/-- C4 amended: a tick that fires while previous same-kind collections are
still in flight starts a new, concurrently running invocation — the
callback has no in-flight guard, so ticks are never skipped (nor queued):
after n elapsed intervals with a collector slower than all of them, n
invocations are in flight. -/
theorem c4_ticks_never_skipped (n : Nat) :
    ∀ st : TimerState, (runTicks n st).inFlight = st.inFlight + n := by
  induction n with
  | zero => intro st; rfl
  | succ n ih =>
      intro st
      have hunf : runTicks (n + 1) st = runTicks n (timerTick st) := rfl
      rw [hunf, ih]
      simp only [timerTick]
      omega

/-- A hub holding one OPEN client (id 0) and one closed client (id 1). -/
def hubMixed : Hub :=
  { clients := [{ id := 0, readyState := 1, received := [] },
                { id := 1, readyState := 0, received := [] }] }

/-- C5 counterexample: after a broadcast in which the dead (non-OPEN)
channel id 1 could not be sent to, that channel is still a member of the
client set — `broadcastToClients` removes nobody — contradicting "the
channel whose send failed is absent from the set by the next broadcast"
(the delivery to the other, open channel does succeed). -/
theorem c5_no_eviction_counterexample :
    (broadcastToClients "metrics" (.metricsVal .empty) hubMixed).clients.map
        Client.id = [0, 1] ∧
    ((broadcastToClients "metrics" (.metricsVal .empty) hubMixed).clients.getD
        1 defaultClient).received = [] ∧
    ((broadcastToClients "metrics" (.metricsVal .empty) hubMixed).clients.getD
        0 defaultClient).received =
      [{ type := "metrics", data := .metricsVal .empty }] :=
  ⟨rfl, rfl, rfl⟩

/-- C5 amended: a broadcast delivers the snapshot to every OPEN channel and
skips every non-OPEN channel untouched, so one dead channel never prevents
delivery to the rest — but membership of the client set is unchanged by the
broadcast itself (dead channels are removed by the close handling of the
WebSocket server, not by `broadcastToClients`). -/
theorem c5_broadcast_skips_closed (t : String) (d : Payload) (hub : Hub)
    (i : Nat) (hi : i < hub.clients.length) :
    (broadcastToClients t d hub).clients.map Client.id =
      hub.clients.map Client.id ∧
    ((hub.clients.getD i defaultClient).readyState = 1 →
      ((broadcastToClients t d hub).clients.getD i defaultClient).received =
        (hub.clients.getD i defaultClient).received ++
          [{ type := t, data := d }]) ∧
    ((hub.clients.getD i defaultClient).readyState ≠ 1 →
      (broadcastToClients t d hub).clients.getD i defaultClient =
        hub.clients.getD i defaultClient) := by
  have hget : (broadcastToClients t d hub).clients.getD i defaultClient =
      deliver [{ type := t, data := d }] (hub.clients.getD i defaultClient) :=
    getD_map_of_lt _ hub.clients i defaultClient defaultClient hi
  refine ⟨?_, ?_, ?_⟩
  · simp only [broadcastToClients, List.map_map]
    apply List.map_congr_left
    intro c _
    simp only [Function.comp_apply, deliver]
    by_cases h : c.readyState = 1 <;> simp [h]
  · intro hopen
    rw [hget]
    unfold deliver
    rw [if_pos hopen]
  · intro hclosed
    rw [hget]
    unfold deliver
    rw [if_neg hclosed]

/-- Witness for C5 (amended): instantiated on the mixed hub at the open
client, index 0. -/
theorem c5_broadcast_skips_closed_witness :
    0 < hubMixed.clients.length ∧
    ((broadcastToClients "metrics" (.metricsVal .empty) hubMixed).clients.map
        Client.id = hubMixed.clients.map Client.id ∧
     ((hubMixed.clients.getD 0 defaultClient).readyState = 1 →
       ((broadcastToClients "metrics" (.metricsVal .empty) hubMixed).clients.getD
           0 defaultClient).received =
         (hubMixed.clients.getD 0 defaultClient).received ++
           [{ type := "metrics", data := .metricsVal .empty }]) ∧
     ((hubMixed.clients.getD 0 defaultClient).readyState ≠ 1 →
       (broadcastToClients "metrics" (.metricsVal .empty) hubMixed).clients.getD
           0 defaultClient = hubMixed.clients.getD 0 defaultClient)) :=
  ⟨by decide,
   c5_broadcast_skips_closed "metrics" (.metricsVal .empty) hubMixed 0 (by decide)⟩

/-- C6: when snapshots are broadcast one after the other, every client that
is OPEN and present throughout receives them appended in broadcast order,
so for any two broadcasts at positions j < k the client receives the j-th
strictly before the k-th (per-observer ordering; a fortiori per-kind). -/
theorem c6_broadcast_order (bs : List WsMessage) (hub : Hub) (i : Nat)
    (hi : i < hub.clients.length)
    (hopen : (hub.clients.getD i defaultClient).readyState = 1)
    (j k : Nat) (hjk : j < k) (hk : k < bs.length) :
    ((runBroadcasts bs hub).clients.getD i defaultClient).received =
        (hub.clients.getD i defaultClient).received ++ bs ∧
    (hub.clients.getD i defaultClient).received.length + j <
        (hub.clients.getD i defaultClient).received.length + k ∧
    ((runBroadcasts bs hub).clients.getD i defaultClient).received.getD
        ((hub.clients.getD i defaultClient).received.length + j) defaultMsg =
      bs.getD j defaultMsg ∧
    ((runBroadcasts bs hub).clients.getD i defaultClient).received.getD
        ((hub.clients.getD i defaultClient).received.length + k) defaultMsg =
      bs.getD k defaultMsg := by
  have hrec : (runBroadcasts bs hub).clients.getD i defaultClient =
      deliver bs (hub.clients.getD i defaultClient) := by
    rw [runBroadcasts_clients]
    exact getD_map_of_lt (deliver bs) hub.clients i defaultClient defaultClient hi
  have hrec2 : ((runBroadcasts bs hub).clients.getD i defaultClient).received =
      (hub.clients.getD i defaultClient).received ++ bs := by
    rw [hrec]
    unfold deliver
    rw [if_pos hopen]
  refine ⟨hrec2, by omega, ?_, ?_⟩
  · rw [hrec2, getD_append_add]
  · rw [hrec2, getD_append_add]

/-- A hub with a single open client, id 7. -/
def hubSolo : Hub :=
  { clients := [{ id := 7, readyState := 1, received := [] }] }

/-- First of two metrics broadcasts used to instantiate C6. -/
def msgFst : WsMessage := { type := "metrics", data := .metricsVal .empty }

/-- Second of two metrics broadcasts used to instantiate C6. -/
def msgSnd : WsMessage := { type := "metrics", data := .metricsVal .demoMessage }

/-- Witness for C6: two same-kind broadcasts to the single open client of
`hubSolo` are received in broadcast order. -/
theorem c6_broadcast_order_witness :
    (0 < hubSolo.clients.length ∧
     (hubSolo.clients.getD 0 defaultClient).readyState = 1 ∧
     0 < 1 ∧ 1 < [msgFst, msgSnd].length) ∧
    (((runBroadcasts [msgFst, msgSnd] hubSolo).clients.getD 0
          defaultClient).received =
        (hubSolo.clients.getD 0 defaultClient).received ++ [msgFst, msgSnd] ∧
     (hubSolo.clients.getD 0 defaultClient).received.length + 0 <
        (hubSolo.clients.getD 0 defaultClient).received.length + 1 ∧
     ((runBroadcasts [msgFst, msgSnd] hubSolo).clients.getD 0
          defaultClient).received.getD
        ((hubSolo.clients.getD 0 defaultClient).received.length + 0)
          defaultMsg = [msgFst, msgSnd].getD 0 defaultMsg ∧
     ((runBroadcasts [msgFst, msgSnd] hubSolo).clients.getD 0
          defaultClient).received.getD
        ((hubSolo.clients.getD 0 defaultClient).received.length + 1)
          defaultMsg = [msgFst, msgSnd].getD 1 defaultMsg) :=
  ⟨⟨by decide, by decide, by decide, by decide⟩,
   c6_broadcast_order [msgFst, msgSnd] hubSolo 0 (by decide) (by decide) 0 1
     (by decide) (by decide)⟩

/-- Sample successful metrics payload used to exercise the pull path. -/
def sampleMetrics : MetricsData :=
  { cpu := some 12, memory := some { percent := 34 } }

/-- C7 counterexample: one invocation of the `GET /api/metrics` handler on
the initial state triggers a fresh collection as a side effect — it grows
`metricsHistory` from length 0 to length 1 and changes the store — because
the handler awaits `collectMetrics()` instead of reading `currentMetrics`. -/
theorem c7_pull_side_effect_counterexample :
    (apiMetrics false (.ok sampleMetrics) 7 initialState).2.metricsHistory.length
        = 1 ∧
    initialState.metricsHistory.length = 0 ∧
    (apiMetrics false (.ok sampleMetrics) 7 initialState).2 ≠ initialState := by
  refine ⟨rfl, rfl, by decide⟩

/-- C7 amended: `getHistory` and `getStatus` read the store synchronously
and leave it unchanged, but `getMetrics`, `getEventLogs` and
`getDiagnostics` each trigger a fresh collection as a side effect of being
read, updating the store on success with the freshly collected data. -/
theorem c7_pull_read_effects (s : ServerState) (dm : Bool) (d : MetricsData)
    (ed : EventLogsData) (dd : DiagData) (t : Nat) :
    (apiHistory s).2 = s ∧
    (apiStatus dm s).2 = s ∧
    (apiMetrics false (.ok d) t s).2.currentMetrics = .data d ∧
    (apiMetrics false (.ok d) t s).2.metricsHistory =
      pushHistory MAX_HISTORY (historyPoint t d) s.metricsHistory ∧
    (apiEventlogs false (.ok ed) s).2.eventLogs = ed.events.getD [] ∧
    (apiDiagnostics false (.ok dd) s).2.systemDiagnostics = .scriptData dd :=
  ⟨rfl, rfl, rfl, rfl, rfl, rfl⟩

/-- C8: the startup callback performs one immediate collection of every
kind — metrics, event logs, diagnostics — before any interval timer has
fired, so that (with each collector succeeding) the store holds a snapshot
for each kind: the fresh metrics payload, the fresh event list, the fresh
diagnostics, and the first history point. -/
theorem c8_startup_collects_all (md : MetricsData) (ed : EventLogsData)
    (dd : DiagData) (t : Nat) :
    (startupCollect false (.ok md) (.ok ed) (.ok dd) t initialState).currentMetrics
        = .data md ∧
    (startupCollect false (.ok md) (.ok ed) (.ok dd) t initialState).eventLogs
        = ed.events.getD [] ∧
    (startupCollect false (.ok md) (.ok ed) (.ok dd) t
        initialState).systemDiagnostics = .scriptData dd ∧
    (startupCollect false (.ok md) (.ok ed) (.ok dd) t
        initialState).metricsHistory = [historyPoint t md] :=
  ⟨rfl, rfl, rfl, rfl⟩

/-- C9: in demo mode (non-Windows platform) every collection operation —
scheduled tick or pull-triggered, for any script outcome — leaves the
state untouched, so after any number of cycles `currentMetrics` is still
the initial empty object, `metricsHistory` is still empty, a joining
observer's initial metrics message carries the empty object, and
`GET /api/history` returns the empty sequence with count 0. -/
theorem c9_demo_mode_state_frozen (ops : List ServerOp) :
    (ops.foldl (runOp true) initialState).currentMetrics = MetricsValue.empty ∧
    (ops.foldl (runOp true) initialState).metricsHistory = [] ∧
    (onConnection (ops.foldl (runOp true) initialState)).getD 0 defaultMsg =
      { type := "metrics", data := .metricsVal MetricsValue.empty } ∧
    (apiHistory (ops.foldl (runOp true) initialState)).1 =
      { history := [], count := 0 } := by
  have hfix : ∀ (s : ServerState) (op : ServerOp), runOp true s op = s := by
    intro s op
    cases op <;> rfl
  have hfold : ops.foldl (runOp true) initialState = initialState := by
    induction ops with
    | nil => rfl
    | cons o os ih =>
        rw [List.foldl_cons, hfix]
        exact ih
  rw [hfold]
  exact ⟨rfl, rfl, rfl, rfl⟩

/-- C10: the response of `GET /api/history` always has its `count` field
equal to the length of its `history` field. -/
theorem c10_history_count_matches (s : ServerState) :
    (apiHistory s).1.count = (apiHistory s).1.history.length := rfl

end Win11Monitor
